import Mathlib

/-! Verification of the discord-to-rss core: a shallow embedding of the
message store, record construction and feed synthesis from src/main.rs,
and of the sanitizer pipeline from src/text2html.rs. -/

namespace DiscordToRss

/-! Sanitizer (src/text2html.rs).

The function text2html composes three steps: ammonia::clean (an external
HTML sanitizer crate), linkify::LinkFinder::spans with URL/email spans
wrapped in anchor tags, and a final pre wrapper.  ammonia and linkify are
external crates whose sources are not part of this repository. -/

/-- Modelled from the spec: linkify's URL characters.  A detected link span
extends over characters until whitespace or a markup delimiter; the spec
says link boundaries follow whitespace/punctuation rules (section 4.1). -/
def isUrlChar (c : Char) : Bool :=
  !(c = ' ' || c = '\t' || c = '\n' || c = '\r' || c = '<' || c = '>' || c = '"')

/-- Modelled from the spec: linkify's URL-span start detection, restricted to
the http and https schemes exercised by the spec and the repository tests. -/
def urlStart (l : List Char) : Bool :=
  ("https://").data.isPrefixOf l || ("http://").data.isPrefixOf l

/-- A character that can begin an HTML tag name after a left bracket
(html5ever starts a tag on an ASCII letter, or a slash for an end tag). -/
def tagStartChar (c : Char) : Bool := c.isAlpha || c = '/'

/-- Modelled from the spec: recognition of an anchor tag carrying only an
href attribute, the shape the sanitizer itself emits.  Returns the href
value when the tag body is exactly an opening quote-delimited href whose
value consists of URL characters. -/
def hrefValue (t : List Char) : Option (List Char) :=
  if ("a href=\"").data.isPrefixOf t = true then
    if (t.drop 8).getLast? = some '"' then
      if (t.drop 8).dropLast.all isUrlChar = true then some ((t.drop 8).dropLast)
      else none
    else none
  else none

/-- Modelled from the spec: ammonia keeps an allowlist of tags and strips the
rest (section 4.1: markup-significant sequences are neutralized, custom
platform inline markup such as emoji shortcodes is stripped).  The model
keeps exactly the tag forms the sanitizer itself produces — pre, /pre,
a href="...", /a — re-serialized canonically, and strips every other tag,
matching the repository unit tests in src/text2html.rs. -/
def classifyTag (t : List Char) : Option (List Char) :=
  if t = ("pre").data then some ("<pre>").data
  else if t = ("/pre").data then some ("</pre>").data
  else if t = ("/a").data then some ("</a>").data
  else
    match hrefValue t with
    | some u => some (("<a href=\"").data ++ u ++ ("\">").data)
    | none => none

/-- State of the cleaning scanner: plain text, or inside a tag whose body is
accumulated in reverse. -/
inductive CleanState where
  | text : CleanState
  | tag : List Char → CleanState

/-- Whether a list begins with a character that can open a tag. -/
def tagStarts : List Char → Bool
  | [] => false
  | d :: _ => tagStartChar d

/-- Modelled from the spec: ammonia::clean as a character scanner.  Text
characters are passed through with the markup-significant characters
escaped; a left bracket followed by a tag-start character opens a tag that
is consumed up to the next right bracket and then kept (canonically) or
stripped according to classifyTag; an unterminated tag is dropped, and a
left bracket not opening a tag is escaped. -/
def cleanGo : CleanState → List Char → List Char
  | .text, [] => []
  | .text, c :: rest =>
    if c = '<' then
      if tagStarts rest then cleanGo (.tag []) rest
      else ("&lt;").data ++ cleanGo .text rest
    else if c = '>' then ("&gt;").data ++ cleanGo .text rest
    else if c = '&' then ("&amp;").data ++ cleanGo .text rest
    else c :: cleanGo .text rest
  | .tag _, [] => []
  | .tag acc, c :: rest =>
    if c = '>' then (classifyTag acc.reverse).getD [] ++ cleanGo .text rest
    else cleanGo (.tag (c :: acc)) rest

/-- The cleaning pass over a character list. -/
def cleanChars (l : List Char) : List Char := cleanGo .text l

/-- State of the linkifying scanner: plain text, or inside a URL span whose
characters are accumulated in reverse. -/
inductive LinkState where
  | text : LinkState
  | url : List Char → LinkState

/-- The hyperlink annotation the sanitizer wraps around a detected span:
an anchor linking to itself (format in src/text2html.rs line 9). -/
def mkLink (u : List Char) : List Char :=
  ("<a href=\"").data ++ u ++ ("\">").data ++ u ++ ("</a>").data

/-- Modelled from the spec: the linkify span walk of src/text2html.rs lines
5-13.  Non-link spans pass through unchanged; a span starting with a URL
scheme is collected while URL characters last and wrapped via mkLink. -/
def linkifyGo : LinkState → List Char → List Char
  | .text, [] => []
  | .text, c :: rest =>
    if urlStart (c :: rest) then linkifyGo (.url [c]) rest
    else c :: linkifyGo .text rest
  | .url acc, [] => mkLink acc.reverse
  | .url acc, c :: rest =>
    if isUrlChar c then linkifyGo (.url (c :: acc)) rest
    else mkLink acc.reverse ++ c :: linkifyGo .text rest

/-- The linkifying pass over a character list. -/
def linkifyChars (l : List Char) : List Char := linkifyGo .text l

/-- src/text2html.rs lines 3-15: clean, wrap link spans, wrap the whole
result in a preformatted container. -/
def text2html (text : String) : String :=
  String.mk (("<pre>").data ++ linkifyChars (cleanChars text.data) ++ ("</pre>").data)

/-- Number of positions at which an anchor-open tag starts: counts the
hyperlink-annotated spans of a sanitizer output. -/
def countAOpens : List Char → Nat
  | [] => 0
  | c :: rest =>
    (if ("<a href=\"").data.isPrefixOf (c :: rest) then 1 else 0) + countAOpens rest

/-- src/main.rs lines 36-46: the record stored per inbound message. -/
structure ReceivedMessage where
  content : String
  author : String
  channel_name : String
  id : String
  created_timestamp : String
  edited_timestamp : String
  message_url : String
  deriving DecidableEq, Repr

/-- The fields of a serenity Message that ReceivedMessage::from_discord_message
reads: raw content, author display name, the channel-name cache lookup result
(none on a cache miss), creation timestamp, optional edit timestamp, numeric
id and permalink. -/
structure DiscordMessage where
  content : String
  author_name : String
  channel_name_lookup : Option String
  timestamp : String
  edited_timestamp : Option String
  id : Nat
  link : String
  deriving DecidableEq, Repr

/-- src/main.rs lines 49-63: record construction.  The channel-name lookup
falls back to "Unknown Channel", the edit timestamp falls back to the
creation timestamp, the content is sanitized, and the numeric id is
rendered as a string.  The function is total: no branch fails. -/
def from_discord_message (item : DiscordMessage) : ReceivedMessage :=
  { content := text2html item.content
    author := item.author_name
    channel_name := item.channel_name_lookup.getD ("Unknown Channel")
    created_timestamp := item.timestamp
    edited_timestamp := item.edited_timestamp.getD item.timestamp
    id := toString item.id
    message_url := item.link }

/-- src/main.rs line 177: AllocRingBuffer::with_capacity(32). -/
def capacity : Nat := 32

/-- RingBufferWrite::push on AllocRingBuffer: append, evicting the single
oldest element first when the buffer is full.  The store is the list of
records oldest first. -/
def push (buf : List ReceivedMessage) (r : ReceivedMessage) : List ReceivedMessage :=
  if buf.length < capacity then buf ++ [r] else buf.tail ++ [r]

/-- A sequence of pushes in order (head pushed first). -/
def pushAll (buf : List ReceivedMessage) (rs : List ReceivedMessage) : List ReceivedMessage :=
  rs.foldl push buf

/-- src/main.rs lines 194-197: buffer.iter().cloned().collect().  The
ringbuffer crate iterates from the element pushed longest ago to the most
recently pushed one (index 0 is the oldest), so the snapshot is the store
contents oldest first. -/
def snapshot (buf : List ReceivedMessage) : List ReceivedMessage := buf

/-- The fields of an atom_syndication Entry that httphandler sets
(src/main.rs lines 203-227). -/
structure Entry where
  title : String
  content : String
  author_name : String
  published : String
  updated : String
  link_href : String
  id : String
  deriving DecidableEq, Repr

/-- The fields of an atom_syndication Feed that httphandler sets
(src/main.rs lines 199-229). -/
structure Feed where
  title : String
  entries : List Entry
  deriving DecidableEq, Repr

/-- src/main.rs lines 203-227: one feed entry per record.  The title is the
author, a colon-space separator, and the first 80 characters of the
sanitized content (the substring crate truncates by character count). -/
def entryOf (item : ReceivedMessage) : Entry :=
  { title := item.author ++ (": ") ++ String.mk (item.content.data.take 80)
    content := item.content
    author_name := item.author
    published := item.created_timestamp
    updated := item.edited_timestamp
    link_href := item.message_url
    id := item.id }

/-- src/main.rs lines 199-229: the feed built by httphandler from a snapshot.
The entry loop runs over items.iter().rev(), so entries are appended in the
reverse of snapshot order. -/
def synthesize (items : List ReceivedMessage) : Feed :=
  { title := ("Discord messages"), entries := items.reverse.map entryOf }

/-- src/main.rs lines 193-230: the feed endpoint body — snapshot the store,
synthesize the document. -/
def httphandler (buf : List ReceivedMessage) : Feed := synthesize (snapshot buf)

/-- Modelled from the spec: the atom_syndication serializer (an external
crate) renders a feed value to its XML document; it is a function of the
feed value alone — section 4.3 requires no current-time stamps and no
random identifiers, and httphandler feeds it only record data. -/
def renderEntry (e : Entry) : String :=
  ("<entry><id>") ++ e.id ++ ("</id><title>") ++ e.title
    ++ ("</title><author><name>") ++ e.author_name
    ++ ("</name></author><published>") ++ e.published
    ++ ("</published><updated>") ++ e.updated
    ++ ("</updated><link href=\"") ++ e.link_href
    ++ ("\"/><content>") ++ e.content ++ ("</content></entry>")

/-- Modelled from the spec: document-level serialization, a pure function of
the feed value. -/
def renderFeed (f : Feed) : String :=
  ("<feed><title>") ++ f.title ++ ("</title>")
    ++ String.join (f.entries.map renderEntry) ++ ("</feed>")

/-- src/main.rs lines 253-278: the ready handler fetches the 20 most recent
messages, calls unwrap() on the result — a fetch error panics the handler,
modelled as none — and otherwise pushes the fetched messages oldest first
(the fetch returns newest first and is reversed). -/
def readyBacklog (fetched : Except String (List DiscordMessage))
    (buf : List ReceivedMessage) : Option (List ReceivedMessage) :=
  match fetched with
  | Except.error _ => none
  | Except.ok msgs => some (pushAll buf (msgs.reverse.map from_discord_message))

/-- A store state used to witness C2: 33 records with distinct ids. -/
def wrecs : List ReceivedMessage :=
  (List.range 33).map fun i =>
    { content := toString i
      author := ("a")
      channel_name := ("c")
      id := toString i
      created_timestamp := ("t")
      edited_timestamp := ("t")
      message_url := ("u") }

/-- The oldest of three concrete records pushed for the C1 counterexample. -/
def oldestRec : ReceivedMessage :=
  { content := ("a"), author := ("alice"), channel_name := ("general")
    id := ("1"), created_timestamp := ("ta"), edited_timestamp := ("ta")
    message_url := ("ua") }

/-- The middle of three concrete records pushed for the C1 counterexample. -/
def middleRec : ReceivedMessage :=
  { content := ("b"), author := ("bob"), channel_name := ("general")
    id := ("2"), created_timestamp := ("tb"), edited_timestamp := ("tb")
    message_url := ("ub") }

/-- The newest of three concrete records pushed for the C1 counterexample. -/
def newestRec : ReceivedMessage :=
  { content := ("c"), author := ("carol"), channel_name := ("general")
    id := ("3"), created_timestamp := ("tc"), edited_timestamp := ("tc")
    message_url := ("uc") }

/-- A record with an 81-character sanitized content, witnessing C3. -/
def longContentRec : ReceivedMessage :=
  { content := String.mk (List.replicate 81 'x')
    author := ("bob"), channel_name := ("general"), id := ("9")
    created_timestamp := ("t"), edited_timestamp := ("t")
    message_url := ("u") }

/-- A record used to witness C7. -/
def sampleRec : ReceivedMessage :=
  { content := ("hello"), author := ("dave"), channel_name := ("general")
    id := ("5"), created_timestamp := ("t5"), edited_timestamp := ("t5")
    message_url := ("u5") }

/-- A message whose channel-name lookup missed, witnessing C8. -/
def lookupFailMsg : DiscordMessage :=
  { content := ("hi"), author_name := ("eve"), channel_name_lookup := none
    timestamp := ("t1"), edited_timestamp := none, id := 7, link := ("u") }

theorem string_append_data (s t : String) : (s ++ t).data = s.data ++ t.data := by
  cases s; cases t; rfl

/-- Pushing a list of records onto a store that is within capacity keeps the
suffix that fits: everything before the last `capacity` elements is dropped. -/
theorem pushAll_drop (rs : List ReceivedMessage) :
    ∀ buf : List ReceivedMessage, buf.length ≤ capacity →
      pushAll buf rs = (buf ++ rs).drop (buf.length + rs.length - capacity) := by
  induction rs with
  | nil =>
    intro buf h
    simp only [pushAll, List.foldl_nil, List.append_nil, List.length_nil, Nat.add_zero]
    rw [Nat.sub_eq_zero_of_le h, List.drop_zero]
  | cons r rs ih =>
    intro buf h
    show pushAll (push buf r) rs = _
    by_cases hlt : buf.length < capacity
    · have h1 : push buf r = buf ++ [r] := by simp [push, hlt]
      rw [h1, ih (buf ++ [r]) (by simp; omega)]
      rw [List.append_assoc, List.singleton_append]
      congr 1
      simp only [List.length_append, List.length_cons, List.length_nil]
      omega
    · have hfull : buf.length = capacity := by omega
      obtain ⟨b, bt, rfl⟩ : ∃ b bt, buf = b :: bt := by
        cases buf with
        | nil => simp [capacity] at hfull
        | cons b bt => exact ⟨b, bt, rfl⟩
      simp only [List.length_cons] at hfull
      have h1 : push (b :: bt) r = bt ++ [r] := by
        unfold push
        rw [if_neg hlt, List.tail_cons]
      rw [h1, ih (bt ++ [r]) (by simp only [List.length_append, List.length_cons, List.length_nil]; omega)]
      have e1 : (bt ++ [r]).length + rs.length - capacity = rs.length := by
        simp only [List.length_append, List.length_cons, List.length_nil]; omega
      have e2 : (b :: bt).length + (r :: rs).length - capacity = rs.length + 1 := by
        simp only [List.length_cons]; omega
      rw [e1, e2, List.append_assoc, List.singleton_append, List.cons_append,
        List.drop_succ_cons]

/-! Step equations for the sanitizer scanners. -/

/-- C2: the store has fixed capacity 32; pushing capacity + k records into
the store created empty at startup leaves exactly capacity records, namely
the capacity most recently pushed records in push order (the first k pushed
records, the oldest, have been evicted). -/
theorem bounded_eviction (rs : List ReceivedMessage) (k : Nat)
    (h : rs.length = capacity + k) :
    (pushAll [] rs).length = capacity ∧ pushAll [] rs = rs.drop k := by
  have h0 := pushAll_drop rs [] (by simp)
  simp only [List.nil_append, List.length_nil, Nat.zero_add] at h0
  have h1 : rs.length - capacity = k := by omega
  rw [h1] at h0
  refine ⟨?_, h0⟩
  rw [h0]
  simp [List.length_drop]
  omega

theorem bounded_eviction_wit :
    (pushAll [] wrecs).length = capacity ∧ pushAll [] wrecs = wrecs.drop 1 :=
  bounded_eviction wrecs 1 (by rfl)

/-- C1 (amended): given records pushed in order A, B, C (oldest to newest),
the snapshot is oldest first and synthesize reverses it, so the feed
document lists the entries newest first — C, B, A — not oldest first. -/
theorem feed_entries_newest_first (A B C : ReceivedMessage) :
    (synthesize (snapshot (pushAll [] [A, B, C]))).entries
      = [entryOf C, entryOf B, entryOf A] := rfl

/-- C1 counterexample: pushing the records with ids 1, 2, 3 in that order
(oldest to newest) produces a feed whose entry ids are 3, 2, 1 — newest
first — which is not the chronological oldest-first order 1, 2, 3 that the
claim requires. -/
theorem feed_entries_not_oldest_first :
    (synthesize (snapshot (pushAll [] [oldestRec, middleRec, newestRec]))).entries.map
        Entry.id = [("3"), ("2"), ("1")]
    ∧ ([("3"), ("2"), ("1")] : List String) ≠ [("1"), ("2"), ("3")] := by
  exact ⟨rfl, by decide⟩

/-- C3: for every record, the feed entry title is the author name, then a
colon and space, then exactly the first 80 characters of the sanitized
content, truncated purely by character count; in particular an 81-character
sanitized content leaves exactly its first 80 characters after the prefix. -/
theorem title_truncation (item : ReceivedMessage) :
    (entryOf item).title.data
        = item.author.data ++ [':', ' '] ++ item.content.data.take 80
    ∧ (item.content.data.length = 81 → (item.content.data.take 80).length = 80) := by
  constructor
  · have hsep : (": " : String).data = [':', ' '] := rfl
    simp [entryOf, string_append_data, hsep]
  · intro h
    rw [List.length_take, h]
    decide

theorem title_truncation_wit :
    (entryOf longContentRec).title.data
        = longContentRec.author.data ++ [':', ' ']
            ++ longContentRec.content.data.take 80
    ∧ (longContentRec.content.data.take 80).length = 80 :=
  ⟨(title_truncation longContentRec).1, (title_truncation longContentRec).2 (by rfl)⟩

/-- C7: feed synthesis is deterministic — two synthesize calls on the same
snapshot yield the same feed value and hence byte-identical rendered
documents; the embedding is a pure function of the snapshot because the code
reads only record fields (no current time, no random identifiers). -/
theorem synthesize_deterministic (s1 s2 : List ReceivedMessage) (h : s1 = s2) :
    renderFeed (synthesize s1) = renderFeed (synthesize s2)
    ∧ synthesize s1 = synthesize s2 := by
  subst h
  exact ⟨rfl, rfl⟩

theorem synthesize_deterministic_wit :
    renderFeed (synthesize [sampleRec]) = renderFeed (synthesize [sampleRec])
    ∧ synthesize [sampleRec] = synthesize [sampleRec] :=
  synthesize_deterministic [sampleRec] [sampleRec] rfl

/-- C8: when the channel-name resolution fails (cache miss), record
construction substitutes the fallback name "Unknown Channel"; construction
is a total function, so ingestion never fails on metadata resolution. -/
theorem channel_name_fallback (m : DiscordMessage)
    (h : m.channel_name_lookup = none) :
    (from_discord_message m).channel_name = ("Unknown Channel") := by
  simp [from_discord_message, h]

theorem channel_name_fallback_wit :
    (from_discord_message lookupFailMsg).channel_name = ("Unknown Channel") :=
  channel_name_fallback lookupFailMsg rfl

/-- C4: for the input "text https://example.com text" the sanitizer output
contains exactly one hyperlink-annotated span, wrapping the URL and linking
to itself, with the surrounding text passed through unchanged, in order,
and unwrapped; this also matches the adds_links_and_pre unit test of
src/text2html.rs. -/
theorem link_detection :
    text2html ("text https://example.com text")
        = ("<pre>text <a href=\"https://example.com\">https://example.com</a> text</pre>")
    ∧ countAOpens (text2html ("text https://example.com text")).data = 1 :=
  ⟨rfl, rfl⟩

/-- C10: when the backlog fetch of the ready handler returns an error the
handler panics on the unwrapped error (modelled as none) instead of seeding
zero records, while any successful fetch — with however few messages — is
pushed in chronological order. -/
theorem ready_panics_on_backlog_error (e : String) (buf : List ReceivedMessage) :
    readyBacklog (Except.error e) buf = none
    ∧ ∀ msgs : List DiscordMessage,
        readyBacklog (Except.ok msgs) buf
          = some (pushAll buf (msgs.reverse.map from_discord_message)) :=
  ⟨rfl, fun _ => rfl⟩

end DiscordToRss
